import Mathlib

/-!
Shallow embedding of the ticket-analysis frontend: the submission form
(`handleSubmit` and the submit button of `TicketForm`) and the result
renderer (`TicketResult` with its trace-fetch effect).

Conventions of the embedding:
* Optional / possibly-undefined JavaScript values become `Option`.
* JavaScript numbers become `Rat` (all the arithmetic the code performs
  is exact on the values of interest).
* A JavaScript member access on a possibly-undefined object is `jsGet`,
  which raises a TypeError in the `Except` monad; optional chaining
  `a?.b` is `Option.bind`.  A renderer result of `Except.error` models a
  crash of the component.
* Truthiness of a string field (used by the code in `data.trace_id &&`
  and `if (result?.trace_id)`) is `truthyStr`: absent and empty strings
  are falsy.
* An array field is truthy whenever present (JavaScript arrays, even
  empty ones, are truthy), hence `Option.isSome` on `Option (List _)`.
-/

/-- The client-side mode selector of `TicketForm`. -/
inductive Mode where
  | good
  | bad
  | compare
deriving DecidableEq

/-- Default of `process.env.NEXT_PUBLIC_API_URL || http://localhost:8000`. -/
def API_URL : String := "http://localhost:8000"

/-- The endpoint chosen by `handleSubmit` from the current mode. -/
def endpointFor : Mode → String
  | Mode.good => "/api/ticket/analyze"
  | Mode.bad => "/api/ticket/analyze-bad"
  | Mode.compare => "/api/ticket/compare"

/-- Drops the leading whitespace characters of a character list. -/
def dropLeadingWhitespace : List Char → List Char
  | [] => []
  | c :: cs => if c.isWhitespace then dropLeadingWhitespace cs else c :: cs

/-- `String.prototype.trim`: removes leading and trailing whitespace. -/
def jsTrim (s : String) : String :=
  String.mk (List.reverse (dropLeadingWhitespace (List.reverse (dropLeadingWhitespace s.data))))

/-- The POST body built by `handleSubmit`: a single field `user_input`. -/
structure PostBody where
  user_input : String
deriving DecidableEq

/-- One outgoing POST request of the form component. -/
structure PostRequest where
  url : String
  body : PostBody
deriving DecidableEq

/-- The `result` object inside a successful analysis response. -/
structure TicketFields where
  category : Option String := none
  urgency : Option String := none
  product : Option String := none
  confidence : Option Rat := none
  summary : Option String := none
  suggested_action : Option String := none
deriving DecidableEq

/-- One side of a compare response (`bad_approach` / `good_approach`).
The inner `result` is kept as the serialized form the renderer prints. -/
structure Approach where
  result : Option String := none
  problems : Option (List String) := none
  benefits : Option (List String) := none
deriving DecidableEq

/-- The response body of the analysis endpoints (`response.data`). -/
structure RespData where
  success : Option Bool := none
  result : Option TicketFields := none
  duration_ms : Option Rat := none
  trace_id : Option String := none
  error : Option String := none
  status : Option String := none
  validation_errors : Option (List String) := none
  bad_approach : Option Approach := none
  good_approach : Option Approach := none
deriving DecidableEq

/-- The object handed to `onResult`: the response data spread together
with the client-side `mode`. -/
structure ResultPayload extends RespData where
  mode : Mode
deriving DecidableEq

/-- Outcome of one invocation of `handleSubmit`, run to completion with
the network outcome given: the final value of the `loading` flag, the
requests issued, and the value passed to the `onResult` callback. -/
structure SubmitOutcome where
  loadingAfter : Bool
  requests : List PostRequest
  delivered : Option ResultPayload
deriving DecidableEq

/-- `handleSubmit` of `TicketForm`, atomically: guard on trimmed input,
POST to the mode-determined endpoint, deliver the response (or a
synthetic error object) through `onResult`, reset `loading` in the
`finally` block. -/
def handleSubmit (input : String) (mode : Mode) (loading0 : Bool)
    (outcome : Except String RespData) : SubmitOutcome :=
  if jsTrim input = "" then
    { loadingAfter := loading0, requests := [], delivered := none }
  else
    match outcome with
    | Except.ok data =>
        { loadingAfter := false
          requests := [{ url := API_URL ++ endpointFor mode, body := { user_input := input } }]
          delivered := some { toRespData := data, mode := mode } }
    | Except.error msg =>
        { loadingAfter := false
          requests := [{ url := API_URL ++ endpointFor mode, body := { user_input := input } }]
          delivered := some { toRespData := { error := some msg }, mode := mode } }

/-- UI state of `TicketForm` plus the number of outstanding analysis
requests. -/
structure FormState where
  input : String
  loading : Bool
  mode : Mode
  pending : Nat
deriving DecidableEq

/-- Initial state of `TicketForm` (`useState` initializers). -/
def initialFormState : FormState :=
  { input := "", loading := false, mode := Mode.good, pending := 0 }

/-- User and system events of the form.  `clickSubmit` is a click on the
submit button, whose `disabled` attribute is `loading || !input.trim()`;
`response` is the resolution (fulfilment or rejection) of an outstanding
analysis request, which runs the `finally` block. -/
inductive FormEvent where
  | clickSubmit
  | setInput (s : String)
  | selectMode (m : Mode)
  | response
deriving DecidableEq

/-- Small-step semantics of the form.  A click on the disabled button
does nothing; an enabled click runs `handleSubmit`, which sets `loading`
and issues one request; a response resolution clears `loading`. -/
def step (s : FormState) : FormEvent → FormState
  | FormEvent.clickSubmit =>
      if s.loading || jsTrim s.input == "" then s
      else { s with loading := true, pending := s.pending + 1 }
  | FormEvent.setInput t => { s with input := t }
  | FormEvent.selectMode m => { s with mode := m }
  | FormEvent.response =>
      if s.pending = 0 then s
      else { s with loading := false, pending := s.pending - 1 }

/-- JavaScript member access on a possibly-undefined object: throws a
TypeError when the object is undefined. -/
def jsGet {α : Type} : Option α → Except String α
  | some a => Except.ok a
  | none => Except.error "TypeError: cannot read properties of undefined"

/-- JavaScript truthiness of an optional string: undefined and the
empty string are falsy. -/
def truthyStr : Option String → Option String
  | some s => if s = "" then none else some s
  | none => none

/-- `Number.prototype.toFixed(0)`: nearest integer, ties away from the
smaller candidate (the specification picks the larger `n`). -/
def toFixedZero (q : Rat) : Int := ⌊q + 1/2⌋

/-- The CSS class chain the success view applies to `urgency`. -/
def urgencyClass (u : Option String) : String :=
  if u = some "P0" then "text-red-600"
  else if u = some "P1" then "text-orange-600"
  else if u = some "P2" then "text-yellow-600"
  else "text-green-600"

/-- The header string of the success view. -/
def successHeader (mode : Mode) : String :=
  if mode = Mode.bad then "❌ 结果（不可靠）" else "✅ 分析结果"

/-- The external Langfuse link shown when `trace_id` is truthy. -/
def langfuseLink (traceId : Option String) : Option String :=
  (truthyStr traceId).map (fun id => "https://cloud.langfuse.com/trace/" ++ id)

/-- The guarded list rendering of a compare panel: the guard
`data.x?.fld && ...` followed by the unguarded accesses
`data.x.fld.map(...)`. -/
def panelList (ap : Option Approach) (fld : Approach → Option (List String)) :
    Except String (Option (List String)) :=
  if (ap.bind fld).isSome then
    match jsGet ap with
    | Except.error e => Except.error e
    | Except.ok a =>
        match jsGet (fld a) with
        | Except.error e => Except.error e
        | Except.ok ls => Except.ok (some ls)
  else Except.ok none

/-- Abstract rendering produced by the `TicketResult` component: one of
the three dispatch branches, or nothing when `result` is null. -/
inductive RenderedView where
  | nothing
  | compareView (badResult : Option String) (badProblems : Option (List String))
      (goodResult : Option String) (goodBenefits : Option (List String))
  | successView (header : String) (durationMs : Option Rat)
      (category : Option String) (urgency : Option String) (urgencyCss : String)
      (product : Option String) (confidencePct : Option Int)
      (summary : Option String) (suggestedAction : Option String)
      (traceLink : Option String)
  | failureView (status : Option String) (error : Option String)
      (validationErrors : Option (List String))
deriving DecidableEq

/-- The render function of the `TicketResult` component.  `Except.error`
models a thrown TypeError (a crash); the branch structure mirrors the
source: null guard, compare branch, success branch, failure fallback. -/
def TicketResult (res : Option ResultPayload) : Except String RenderedView :=
  match res with
  | none => Except.ok RenderedView.nothing
  | some r =>
    if r.mode = Mode.compare then
      match panelList r.bad_approach Approach.problems with
      | Except.error e => Except.error e
      | Except.ok badProblems =>
        match panelList r.good_approach Approach.benefits with
        | Except.error e => Except.error e
        | Except.ok goodBenefits =>
          Except.ok (RenderedView.compareView
            (r.bad_approach.bind Approach.result) badProblems
            (r.good_approach.bind Approach.result) goodBenefits)
    else if r.success = some true ∧ r.result.isSome then
      match jsGet r.result with
      | Except.error e => Except.error e
      | Except.ok tf =>
          Except.ok (RenderedView.successView (successHeader r.mode) r.duration_ms
            tf.category tf.urgency (urgencyClass tf.urgency) tf.product
            (tf.confidence.map (fun c => toFixedZero (c * 100)))
            tf.summary (truthyStr tf.suggested_action) (langfuseLink r.trace_id))
    else
      Except.ok (RenderedView.failureView r.status r.error r.validation_errors)

/-- The dependency value of the trace-fetch effect: `result?.trace_id`. -/
def traceDep (res : Option ResultPayload) : Option String :=
  res.bind (fun r => r.trace_id)

/-- The GET request the effect body issues, when its guard
`if (result?.trace_id)` passes. -/
def traceRequest (res : Option ResultPayload) : Option String :=
  match truthyStr (traceDep res) with
  | some id => some (API_URL ++ "/api/trace/" ++ id)
  | none => none

/-- React effect semantics over a sequence of renders: the effect body
runs on the first render and on every render whose dependency value
differs from the previous render.  Returns the GET requests issued.
`prev` is the dependency value of the previous render, `none` before the
first render. -/
def traceEffects : Option (Option String) → List (Option ResultPayload) → List String
  | _, [] => []
  | prev, r :: rs =>
      if prev = some (traceDep r) then traceEffects prev rs
      else (traceRequest r).toList ++ traceEffects (some (traceDep r)) rs

/-- The opaquely-structured trace record returned by the trace
endpoint. -/
structure TraceDetail where
  raw : String
deriving DecidableEq

/-- Completion of one trace fetch: on success the `trace` state is set;
on failure nothing is set and one console line is logged. -/
def traceFetchResult (outcome : Except String TraceDetail) :
    Option TraceDetail × List String :=
  match outcome with
  | Except.ok d => (some d, [])
  | Except.error msg => (none, ["Failed to fetch trace: " ++ msg])

/-- Branch discriminator of a rendered view, used to state that the
renderer hits exactly one of the three payload-shaped branches. -/
def branchIndex : RenderedView → Nat
  | RenderedView.nothing => 0
  | RenderedView.compareView _ _ _ _ => 1
  | RenderedView.successView _ _ _ _ _ _ _ _ _ _ => 2
  | RenderedView.failureView _ _ _ => 3

/-- Invariant of the form state: never more than one outstanding
analysis request, and none at all while `loading` is off. -/
def FormInv (s : FormState) : Prop :=
  s.pending ≤ 1 ∧ (s.loading = false → s.pending = 0)

/-- The worked success payload of the spec example. -/
def exampleTicket : TicketFields :=
  { category := some "COMPLAINT", urgency := some "P0", product := some "SmartWatch X",
    confidence := some ((92 : Rat) / 100), summary := some "用户投诉智能手表故障，要求退款" }

/-- A success-mode payload wrapping `exampleTicket`. -/
def exampleSuccessPayload : ResultPayload :=
  { success := some true, result := some exampleTicket, duration_ms := some 850,
    mode := Mode.good }

/-- The worked failure payload of the spec example. -/
def exampleFailurePayload : ResultPayload :=
  { success := some false, status := some "validation_failed", error := some "missing field",
    validation_errors := some ["category required"], mode := Mode.bad }

/-- A compare-mode failure payload carrying a trace id. -/
def exampleComparePayload : ResultPayload :=
  { success := some false, trace_id := some "t1", mode := Mode.compare }

/-- A compare-mode payload carrying trace id `tr-9`. -/
def tracedComparePayload : ResultPayload :=
  { success := some false, trace_id := some "tr-9", mode := Mode.compare }

/-- A good-mode payload carrying the same trace id `tr-9`. -/
def tracedGoodPayload : ResultPayload :=
  { success := some true, trace_id := some "tr-9", mode := Mode.good }

/-- The guarded compare-panel list rendering never throws: it evaluates
to the value of the optional chain. -/
lemma panelList_ok (ap : Option Approach) (fld : Approach → Option (List String)) :
    panelList ap fld = Except.ok (ap.bind fld) := by
  cases ap with
  | none => rfl
  | some a =>
      cases hf : fld a with
      | none => simp [panelList, jsGet, hf]
      | some ls => simp [panelList, jsGet, hf]

/-- Evaluation of the renderer on a compare-mode payload. -/
lemma ticketResult_compare_eq (r : ResultPayload) (h : r.mode = Mode.compare) :
    TicketResult (some r) =
      Except.ok (RenderedView.compareView
        (r.bad_approach.bind Approach.result) (r.bad_approach.bind Approach.problems)
        (r.good_approach.bind Approach.result) (r.good_approach.bind Approach.benefits)) := by
  simp [TicketResult, h, panelList_ok]

/-- Evaluation of the renderer on a successful payload. -/
lemma ticketResult_success_eq (r : ResultPayload) (tf : TicketFields)
    (hm : r.mode ≠ Mode.compare) (hs : r.success = some true) (hr : r.result = some tf) :
    TicketResult (some r) =
      Except.ok (RenderedView.successView (successHeader r.mode) r.duration_ms
        tf.category tf.urgency (urgencyClass tf.urgency) tf.product
        (tf.confidence.map (fun c => toFixedZero (c * 100)))
        tf.summary (truthyStr tf.suggested_action) (langfuseLink r.trace_id)) := by
  simp [TicketResult, hm, hs, hr, jsGet]

/-- Evaluation of the renderer on a fallback payload. -/
lemma ticketResult_failure_eq (r : ResultPayload)
    (hm : r.mode ≠ Mode.compare) (hf : ¬(r.success = some true ∧ r.result.isSome)) :
    TicketResult (some r) =
      Except.ok (RenderedView.failureView r.status r.error r.validation_errors) := by
  simp [TicketResult, hm, hf]

/-- Preservation of `FormInv` by every event. -/
lemma formInv_step (s : FormState) (e : FormEvent) (h : FormInv s) :
    FormInv (step s e) := by
  obtain ⟨h1, h2⟩ := h
  cases e with
  | clickSubmit =>
      by_cases hc : (s.loading || jsTrim s.input == "") = true
      · simpa [step, hc] using ⟨h1, h2⟩
      · have hl : s.loading = false := by
          cases hb : s.loading
          · rfl
          · simp [hb] at hc
        have hp : s.pending = 0 := h2 hl
        simp [step, hc, FormInv, hp]
  | setInput t => exact ⟨h1, h2⟩
  | selectMode m => exact ⟨h1, h2⟩
  | response =>
      by_cases hp : s.pending = 0
      · simpa [step, hp] using ⟨h1, h2⟩
      · simp only [step, if_neg hp]
        have hle : s.pending - 1 ≤ 1 := by omega
        have h0 : s.pending - 1 = 0 := by omega
        exact ⟨hle, fun _ => h0⟩

/-- Preservation of `FormInv` by every event sequence. -/
lemma formInv_run (events : List FormEvent) (s : FormState) (h : FormInv s) :
    FormInv (List.foldl step s events) := by
  induction events generalizing s with
  | nil => exact h
  | cons e es ih => exact ih (step s e) (formInv_step s e h)

/-- Claim C1: for every input whose trim is non-empty and every mode,
one invocation of `handleSubmit` issues exactly one POST request, to the
mode-determined endpoint path (`good` to `/api/ticket/analyze`, `bad` to
`/api/ticket/analyze-bad`, `compare` to `/api/ticket/compare`), whose
body has the input text as its sole field `user_input`. -/
theorem submit_one_request (input : String) (mode : Mode) (loading0 : Bool)
    (outcome : Except String RespData) (h : jsTrim input ≠ "") :
    (handleSubmit input mode loading0 outcome).requests =
      [{ url := API_URL ++ endpointFor mode, body := { user_input := input } }]
    ∧ endpointFor Mode.good = "/api/ticket/analyze"
    ∧ endpointFor Mode.bad = "/api/ticket/analyze-bad"
    ∧ endpointFor Mode.compare = "/api/ticket/compare" := by
  refine ⟨?_, rfl, rfl, rfl⟩
  cases outcome <;> simp [handleSubmit, h]

/-- Witness for `submit_one_request` at input `hello`, mode `good`. -/
theorem submit_one_request_witness :
    jsTrim "hello" ≠ "" ∧
    ((handleSubmit "hello" Mode.good false (Except.ok {})).requests =
      [{ url := API_URL ++ endpointFor Mode.good, body := { user_input := "hello" } }]
    ∧ endpointFor Mode.good = "/api/ticket/analyze"
    ∧ endpointFor Mode.bad = "/api/ticket/analyze-bad"
    ∧ endpointFor Mode.compare = "/api/ticket/compare") :=
  ⟨by decide, submit_one_request "hello" Mode.good false (Except.ok {}) (by decide)⟩

/-- Claim C2: for every payload the renderer selects exactly one of the
three branches, in precedence order: compare mode first, then success
with a present result, else the failure panel; the rendered view is a
pure function of the payload (it is a Lean function of `r` alone). -/
theorem result_three_way_dispatch (r : ResultPayload) :
    ∃ v : RenderedView, TicketResult (some r) = Except.ok v ∧
      branchIndex v =
        (if r.mode = Mode.compare then 1
         else if r.success = some true ∧ r.result.isSome then 2 else 3) := by
  by_cases hm : r.mode = Mode.compare
  · exact ⟨_, ticketResult_compare_eq r hm, by simp [hm, branchIndex]⟩
  · by_cases hs : r.success = some true ∧ r.result.isSome
    · obtain ⟨hs1, hs2⟩ := hs
      obtain ⟨tf, htf⟩ := Option.isSome_iff_exists.mp hs2
      exact ⟨_, ticketResult_success_eq r tf hm hs1 htf,
        by simp [hm, hs1, htf, branchIndex]⟩
    · exact ⟨_, ticketResult_failure_eq r hm hs, by simp [hm, hs, branchIndex]⟩

/-- Claim C3: over every sequence of user and completion events starting
from the initial form state, at most one analysis request is outstanding
at any time; a click while `loading` is set hits the disabled submit
button and issues nothing. -/
theorem at_most_one_request_in_flight (events : List FormEvent) :
    (List.foldl step initialFormState events).pending ≤ 1 :=
  (formInv_run events initialFormState ⟨Nat.zero_le 1, fun _ => rfl⟩).1

/-- Claim C4: on a transport or server error, `handleSubmit` delivers a
synthetic payload carrying the error message and the original mode
through the same `onResult` callback used on success (the single
`delivered` channel); no exception escapes (the embedding is a total
function) and the `finally` block resets `loading`. -/
theorem error_routed_through_onResult (input : String) (mode : Mode) (loading0 : Bool)
    (msg : String) (h : jsTrim input ≠ "") :
    (handleSubmit input mode loading0 (Except.error msg)).delivered =
      some { toRespData := { error := some msg }, mode := mode }
    ∧ (handleSubmit input mode loading0 (Except.error msg)).loadingAfter = false
    ∧ (handleSubmit input mode loading0 (Except.error msg)).requests =
        [{ url := API_URL ++ endpointFor mode, body := { user_input := input } }] := by
  refine ⟨?_, ?_, ?_⟩ <;> simp [handleSubmit, h]

/-- Witness for `error_routed_through_onResult` at a network error in
compare mode. -/
theorem error_routed_through_onResult_witness :
    jsTrim "ticket text" ≠ "" ∧
    ((handleSubmit "ticket text" Mode.compare true (Except.error "Network Error")).delivered =
      some { toRespData := { error := some "Network Error" }, mode := Mode.compare }
    ∧ (handleSubmit "ticket text" Mode.compare true (Except.error "Network Error")).loadingAfter = false
    ∧ (handleSubmit "ticket text" Mode.compare true (Except.error "Network Error")).requests =
        [{ url := API_URL ++ endpointFor Mode.compare, body := { user_input := "ticket text" } }]) :=
  ⟨by decide, error_routed_through_onResult "ticket text" Mode.compare true "Network Error" (by decide)⟩

/-- Claim C5: on a compare-mode payload the renderer throws no TypeError
and produces the two-panel view even when `bad_approach` or
`good_approach` or any of their sub-fields is absent: every missing
field degrades to `none` (an empty rendering) through the optional
chains. -/
theorem compare_renders_without_crash (r : ResultPayload) (h : r.mode = Mode.compare) :
    TicketResult (some r) =
      Except.ok (RenderedView.compareView
        (r.bad_approach.bind Approach.result) (r.bad_approach.bind Approach.problems)
        (r.good_approach.bind Approach.result) (r.good_approach.bind Approach.benefits)) :=
  ticketResult_compare_eq r h

/-- Witness for `compare_renders_without_crash` on a compare payload
with both approaches entirely absent. -/
theorem compare_renders_without_crash_witness :
    ({ toRespData := {}, mode := Mode.compare } : ResultPayload).mode = Mode.compare ∧
    TicketResult (some { toRespData := {}, mode := Mode.compare }) =
      Except.ok (RenderedView.compareView none none none none) :=
  ⟨rfl, compare_renders_without_crash { toRespData := {}, mode := Mode.compare } rfl⟩

/-- Claim C6: on a successful payload the view surfaces `category`,
`product` and `summary` verbatim, styles `urgency` with a distinct CSS
class for each of P0 through P3, and shows `confidence` times 100
rounded to an integer percentage, so `0.92` renders as `92`. -/
theorem success_view_surfaces_fields (r : ResultPayload) (tf : TicketFields)
    (hm : r.mode ≠ Mode.compare) (hs : r.success = some true) (hr : r.result = some tf) :
    TicketResult (some r) =
      Except.ok (RenderedView.successView (successHeader r.mode) r.duration_ms
        tf.category tf.urgency (urgencyClass tf.urgency) tf.product
        (tf.confidence.map (fun c => toFixedZero (c * 100)))
        tf.summary (truthyStr tf.suggested_action) (langfuseLink r.trace_id))
    ∧ urgencyClass (some "P0") = "text-red-600"
    ∧ urgencyClass (some "P1") = "text-orange-600"
    ∧ urgencyClass (some "P2") = "text-yellow-600"
    ∧ urgencyClass (some "P3") = "text-green-600"
    ∧ ([urgencyClass (some "P0"), urgencyClass (some "P1"), urgencyClass (some "P2"),
        urgencyClass (some "P3")]).Nodup
    ∧ toFixedZero ((92 : Rat) / 100 * 100) = 92 :=
  ⟨ticketResult_success_eq r tf hm hs hr, by decide, by decide, by decide, by decide,
    by decide, by norm_num [toFixedZero]⟩

/-- Witness for `success_view_surfaces_fields` at the worked example of
the spec. -/
theorem success_view_surfaces_fields_witness :
    exampleSuccessPayload.mode ≠ Mode.compare ∧
    exampleSuccessPayload.success = some true ∧
    exampleSuccessPayload.result = some exampleTicket ∧
    (TicketResult (some exampleSuccessPayload) =
      Except.ok (RenderedView.successView (successHeader exampleSuccessPayload.mode)
        exampleSuccessPayload.duration_ms exampleTicket.category exampleTicket.urgency
        (urgencyClass exampleTicket.urgency) exampleTicket.product
        (exampleTicket.confidence.map (fun c => toFixedZero (c * 100)))
        exampleTicket.summary (truthyStr exampleTicket.suggested_action)
        (langfuseLink exampleSuccessPayload.trace_id))
    ∧ urgencyClass (some "P0") = "text-red-600"
    ∧ urgencyClass (some "P1") = "text-orange-600"
    ∧ urgencyClass (some "P2") = "text-yellow-600"
    ∧ urgencyClass (some "P3") = "text-green-600"
    ∧ ([urgencyClass (some "P0"), urgencyClass (some "P1"), urgencyClass (some "P2"),
        urgencyClass (some "P3")]).Nodup
    ∧ toFixedZero ((92 : Rat) / 100 * 100) = 92) :=
  ⟨by decide, rfl, rfl,
    success_view_surfaces_fields exampleSuccessPayload exampleTicket (by decide) rfl rfl⟩

/-- Claim C7: on a fallback payload carrying a `validation_errors` list,
the failure panel carries that whole list, in order, alongside `status`
and `error` (the JSX maps over the array in order). -/
theorem failure_panel_lists_validation_errors (r : ResultPayload) (errs : List String)
    (hm : r.mode ≠ Mode.compare) (hf : ¬(r.success = some true ∧ r.result.isSome))
    (hv : r.validation_errors = some errs) :
    TicketResult (some r) =
      Except.ok (RenderedView.failureView r.status r.error (some errs)) := by
  rw [ticketResult_failure_eq r hm hf, hv]

/-- Witness for `failure_panel_lists_validation_errors` at the worked
validation-failure example of the spec. -/
theorem failure_panel_lists_validation_errors_witness :
    exampleFailurePayload.mode ≠ Mode.compare ∧
    ¬(exampleFailurePayload.success = some true ∧ exampleFailurePayload.result.isSome) ∧
    exampleFailurePayload.validation_errors = some ["category required"] ∧
    TicketResult (some exampleFailurePayload) =
      Except.ok (RenderedView.failureView exampleFailurePayload.status
        exampleFailurePayload.error (some ["category required"])) :=
  ⟨by decide, by decide, rfl,
    failure_panel_lists_validation_errors exampleFailurePayload ["category required"]
      (by decide) (by decide) rfl⟩

/-- Counterexample to claim C8 as stated: over the render sequence with
trace ids `a`, `b`, `a`, the effect refires for the reappearing value
`a`, so two GET requests are issued for the single distinct trace id
`a`, not exactly one. -/
theorem trace_refetch_counterexample :
    (traceEffects none
      [some { trace_id := some "a", mode := Mode.good },
       some { trace_id := some "b", mode := Mode.good },
       some { trace_id := some "a", mode := Mode.good }]).count
      (API_URL ++ "/api/trace/a") = 2 := by decide

/-- Claim C8 as amended: the trace effect issues exactly one GET when
the dependency `result?.trace_id` differs from the previous render and
is a non-empty string; a re-render with an unchanged trace id issues
nothing; a failed fetch updates no state and is logged exactly once
(never surfaced, never retried). -/
theorem trace_fetch_per_dep_change (prev : Option (Option String))
    (r : Option ResultPayload) (rs : List (Option ResultPayload)) (id : String) (msg : String)
    (hchange : prev ≠ some (traceDep r)) (hid : traceDep r = some id) (hne : id ≠ "") :
    traceEffects prev (r :: rs) =
      (API_URL ++ "/api/trace/" ++ id) :: traceEffects (some (traceDep r)) rs
    ∧ traceEffects (some (traceDep r)) (r :: rs) = traceEffects (some (traceDep r)) rs
    ∧ traceFetchResult (Except.error msg) = (none, ["Failed to fetch trace: " ++ msg]) := by
  refine ⟨?_, ?_, rfl⟩
  · rw [hid] at hchange
    simp [traceEffects, hchange, traceRequest, hid, truthyStr, hne]
  · simp [traceEffects]

/-- Witness for `trace_fetch_per_dep_change` at a first render carrying
trace id `t1`. -/
theorem trace_fetch_per_dep_change_witness :
    (none : Option (Option String)) ≠ some (traceDep (some exampleComparePayload)) ∧
    traceDep (some exampleComparePayload) = some "t1" ∧
    "t1" ≠ "" ∧
    (traceEffects none [some exampleComparePayload] =
      (API_URL ++ "/api/trace/" ++ "t1")
        :: traceEffects (some (traceDep (some exampleComparePayload))) []
    ∧ traceEffects (some (traceDep (some exampleComparePayload))) [some exampleComparePayload] =
        traceEffects (some (traceDep (some exampleComparePayload))) []
    ∧ traceFetchResult (Except.error "Network Error") =
        (none, ["Failed to fetch trace: " ++ "Network Error"])) :=
  ⟨by decide, rfl, by decide,
    trace_fetch_per_dep_change none (some exampleComparePayload) [] "t1" "Network Error"
      (by decide) rfl (by decide)⟩

/-- Claim C9: on input that trims to empty, submission is a no-op: no
request, no callback invocation, `loading` untouched, and a click on the
submit button (disabled for such input) leaves the form state
unchanged. -/
theorem empty_input_noop (input : String) (mode : Mode) (loading0 : Bool)
    (outcome : Except String RespData) (s : FormState)
    (h : jsTrim input = "") (hs : s.input = input) :
    handleSubmit input mode loading0 outcome =
      { loadingAfter := loading0, requests := [], delivered := none }
    ∧ step s FormEvent.clickSubmit = s := by
  constructor
  · simp [handleSubmit, h]
  · simp [step, hs, h]

/-- Witness for `empty_input_noop` at whitespace-only input. -/
theorem empty_input_noop_witness :
    jsTrim "   " = "" ∧
    ({ input := "   ", loading := false, mode := Mode.good, pending := 0 } : FormState).input
      = "   " ∧
    (handleSubmit "   " Mode.bad true (Except.ok {}) =
      { loadingAfter := true, requests := [], delivered := none }
    ∧ step { input := "   ", loading := false, mode := Mode.good, pending := 0 }
        FormEvent.clickSubmit =
        { input := "   ", loading := false, mode := Mode.good, pending := 0 }) :=
  ⟨by decide, rfl,
    empty_input_noop "   " Mode.bad true (Except.ok {})
      { input := "   ", loading := false, mode := Mode.good, pending := 0 } (by decide) rfl⟩

/-- Claim C10: the trace-fetch trigger depends only on the truthiness of
`trace_id`: two payloads with the same `trace_id` produce the same
request whatever their mode or success flag, and any payload with a
non-empty `trace_id` produces the GET to the trace endpoint. -/
theorem trace_trigger_ignores_mode (r r2 : ResultPayload) (id : String)
    (hsame : r.trace_id = r2.trace_id) (hid : r.trace_id = some id) (hne : id ≠ "") :
    traceRequest (some r) = traceRequest (some r2)
    ∧ traceRequest (some r) = some (API_URL ++ "/api/trace/" ++ id) := by
  constructor
  · simp [traceRequest, traceDep, hsame]
  · simp [traceRequest, traceDep, hid, truthyStr, hne]

/-- Witness for `trace_trigger_ignores_mode`: a failed compare-mode
payload and a successful good-mode payload with the same trace id yield
the same GET request. -/
theorem trace_trigger_ignores_mode_witness :
    tracedComparePayload.trace_id = tracedGoodPayload.trace_id ∧
    tracedComparePayload.trace_id = some "tr-9" ∧
    "tr-9" ≠ "" ∧
    (traceRequest (some tracedComparePayload) = traceRequest (some tracedGoodPayload)
    ∧ traceRequest (some tracedComparePayload) = some (API_URL ++ "/api/trace/" ++ "tr-9")) :=
  ⟨rfl, rfl, by decide,
    trace_trigger_ignores_mode tracedComparePayload tracedGoodPayload "tr-9" rfl rfl (by decide)⟩
